import Mathlib

/-!
Verification of the winston layered-configuration resolver.

This file gives a shallow embedding of the configuration code of the
winston repository (src/cli.rs, src/config.rs, src/lib.rs) and proves or
refutes the specified laws about it.

Modelling conventions:
* Rust `String` is Lean `String`; `u32`/`usize` are `Nat` (with explicit
  range checks where the deserializer would reject out-of-range integers);
  `f32`/`f64` are modelled as `Rat` — every float literal appearing in the
  sources and claims (0.0, 0.5, 0.7, 0.9, 1.0, 3.5) is exactly
  representable in binary floating point, and the code does no float
  arithmetic, only storage and comparison, so `Rat` is exact here.
* Filesystem paths are lists of components (`List String`); a `PathBuf`
  push of "winston/config.toml" appends the two components.
* TOML file contents are modelled structurally: a file is either
  `malformed` (text that does not parse as TOML) or a `table` of
  key/value pairs, with scalar values restricted to the shapes the
  schema exercises (string, integer, float).
* Rust panics (`unwrap` / `expect`) are modelled as an explicit
  constructor carrying the panic message, so "terminates abnormally"
  and "returns an error" are distinguishable outcomes.
* `Except String` stands for `Result<_, Box<dyn Error>>`: the error arm
  carries the error message.
-/

set_option autoImplicit false

namespace Winston

/-- A scalar TOML value, restricted to the shapes the winston schema uses. -/
inductive TomlValue where
  | str (s : String)
  | int (n : Int)
  | float (q : Rat)
deriving Repr, DecidableEq

/-- Contents of a file on disk: either text that fails to parse as TOML,
or a parsed flat table of key/value pairs. -/
inductive TomlContent where
  | malformed
  | table (kvs : List (String × TomlValue))
deriving Repr, DecidableEq

/-- A filesystem snapshot: the set of existing directories and the map
from existing file paths to their contents.  Paths are component lists. -/
structure FS where
  dirs : List (List String)
  files : List (List String × TomlContent)
deriving Repr

/-- Read a file: `some` content iff the path exists as a file. -/
def FS.read (fs : FS) (p : List String) : Option TomlContent :=
  fs.files.lookup p

/-- Does a directory exist at this path? -/
def FS.dirExists (fs : FS) (p : List String) : Bool :=
  fs.dirs.contains p

/-- Create-or-truncate a file at `p` with content `c` (what a successful
`File::create` + `write_all` leaves behind). -/
def FS.write (fs : FS) (p : List String) (c : TomlContent) : FS :=
  { fs with files := (p, c) :: fs.files }

/-- Outcome of a Rust function that returns `Self` but may panic. -/
inductive PanicOr (α : Type) where
  | panics (msg : String)
  | ok (a : α)
deriving Repr, DecidableEq

namespace Cfg

/-! Embedding of src/config.rs. -/

def OPENAI_ENDPOINT : String := "https://api.openai.com"

def MODEL : String := "davinci"

def MAX_TOKENS : Nat := 64

def TEMPERATURE : Rat := 0.9

def TOP_P : Rat := 1.0

def FREQUENCY_PENALTY : Rat := 0.0

def PRESENCE_PENALTY : Rat := 0.0

def STOP : String := "\n"

/-- The fully-resolved configuration record of src/config.rs. -/
structure WinstonConfig where
  openai_org_id : String
  openai_api_key : String
  api_endpoint : String
  model : String
  max_tokens : Nat
  temperature : Rat
  top_p : Rat
  frequency_penalty : Rat
  presence_penalty : Rat
  stop : String
deriving Repr, DecidableEq

/-- The builder of src/config.rs: every field optional. -/
structure WinstonConfigBuilder where
  openai_org_id : Option String
  openai_api_key : Option String
  api_endpoint : Option String
  model : Option String
  max_tokens : Option Nat
  temperature : Option Rat
  top_p : Option Rat
  frequency_penalty : Option Rat
  presence_penalty : Option Rat
  stop : Option String
deriving Repr, DecidableEq

/-- Rust `WinstonConfigBuilder::new`: every field `None`. -/
def WinstonConfigBuilder.new : WinstonConfigBuilder :=
  { openai_org_id := none, openai_api_key := none, api_endpoint := none,
    model := none, max_tokens := none, temperature := none, top_p := none,
    frequency_penalty := none, presence_penalty := none, stop := none }

/-- Outcome of `WinstonConfigBuilder::build`, which has return type
`Result<WinstonConfig>` but also contains `expect` calls: it can panic,
return `Ok`, or (as the signature allows, though no code path does)
return `Err`. -/
inductive BuildResult where
  | panics (msg : String)
  | ok (c : WinstonConfig)
  | err (msg : String)
deriving Repr, DecidableEq

/-- Rust `WinstonConfigBuilder::build`: `expect` on `openai_org_id`, then
`expect` on `openai_api_key`, then `unwrap_or_else` defaults for the
remaining fields, wrapped in `Ok`. -/
def WinstonConfigBuilder.build (self : WinstonConfigBuilder) : BuildResult :=
  match self.openai_org_id with
  | none => .panics "Missing OpenAI Organization ID"
  | some openai_org_id =>
    match self.openai_api_key with
    | none => .panics "Missing OpenAI API Key"
    | some openai_api_key =>
      .ok { openai_org_id := openai_org_id
            openai_api_key := openai_api_key
            api_endpoint := self.api_endpoint.getD OPENAI_ENDPOINT
            model := self.model.getD MODEL
            max_tokens := self.max_tokens.getD MAX_TOKENS
            temperature := self.temperature.getD TEMPERATURE
            top_p := self.top_p.getD TOP_P
            frequency_penalty := self.frequency_penalty.getD FREQUENCY_PENALTY
            presence_penalty := self.presence_penalty.getD PRESENCE_PENALTY
            stop := self.stop.getD STOP }

/-- The per-field merge inside `WinstonConfigBuilder::load_config`: for
each field, `if let Some(v) = config.f { self.f = Some(v) }` — a value
present in the file-derived builder replaces the one already in `self`. -/
def WinstonConfigBuilder.mergeFrom (self config : WinstonConfigBuilder) :
    WinstonConfigBuilder :=
  { openai_org_id := match config.openai_org_id with
      | some v => some v
      | none => self.openai_org_id
    openai_api_key := match config.openai_api_key with
      | some v => some v
      | none => self.openai_api_key
    api_endpoint := match config.api_endpoint with
      | some v => some v
      | none => self.api_endpoint
    model := match config.model with
      | some v => some v
      | none => self.model
    max_tokens := match config.max_tokens with
      | some v => some v
      | none => self.max_tokens
    temperature := match config.temperature with
      | some v => some v
      | none => self.temperature
    top_p := match config.top_p with
      | some v => some v
      | none => self.top_p
    frequency_penalty := match config.frequency_penalty with
      | some v => some v
      | none => self.frequency_penalty
    presence_penalty := match config.presence_penalty with
      | some v => some v
      | none => self.presence_penalty
    stop := match config.stop with
      | some v => some v
      | none => self.stop }

/-- serde field access for an optional `String` field: absent key gives
`None`, a string value gives `Some`, any other value type is a
deserialization error. -/
def getStr (kvs : List (String × TomlValue)) (k : String) :
    Except String (Option String) :=
  match kvs.lookup k with
  | none => .ok none
  | some (.str s) => .ok (some s)
  | some _ => .error ("invalid type for key " ++ k)

/-- serde field access for an optional `u32` field: nonnegative integers
up to u32::MAX deserialize, negative or oversized integers and other
value types error. -/
def getU32 (kvs : List (String × TomlValue)) (k : String) :
    Except String (Option Nat) :=
  match kvs.lookup k with
  | none => .ok none
  | some (.int (.ofNat m)) =>
      if m < 4294967296 then .ok (some m)
      else .error ("out of range value for key " ++ k)
  | some (.int (.negSucc _)) => .error ("out of range value for key " ++ k)
  | some _ => .error ("invalid type for key " ++ k)

/-- serde field access for an optional float field: floats deserialize
directly, integers are cast (serde's numeric visitors accept them),
strings error. -/
def getFloat (kvs : List (String × TomlValue)) (k : String) :
    Except String (Option Rat) :=
  match kvs.lookup k with
  | none => .ok none
  | some (.float q) => .ok (some q)
  | some (.int n) => .ok (some (n : Rat))
  | some (.str _) => .error ("invalid type for key " ++ k)

/-- Deserialization `toml::from_str::<WinstonConfigBuilder>`: every field optional,
unknown keys ignored (no deny_unknown_fields), wrong value types are
deserialization errors. -/
def decodeWinstonConfigBuilder (kvs : List (String × TomlValue)) :
    Except String WinstonConfigBuilder :=
  Except.bind (getStr kvs "openai_org_id") fun openai_org_id =>
  Except.bind (getStr kvs "openai_api_key") fun openai_api_key =>
  Except.bind (getStr kvs "api_endpoint") fun api_endpoint =>
  Except.bind (getStr kvs "model") fun model =>
  Except.bind (getU32 kvs "max_tokens") fun max_tokens =>
  Except.bind (getFloat kvs "temperature") fun temperature =>
  Except.bind (getFloat kvs "top_p") fun top_p =>
  Except.bind (getFloat kvs "frequency_penalty") fun frequency_penalty =>
  Except.bind (getFloat kvs "presence_penalty") fun presence_penalty =>
  Except.bind (getStr kvs "stop") fun stop =>
  Except.ok { openai_org_id := openai_org_id, openai_api_key := openai_api_key,
              api_endpoint := api_endpoint, model := model,
              max_tokens := max_tokens, temperature := temperature,
              top_p := top_p, frequency_penalty := frequency_penalty,
              presence_penalty := presence_penalty, stop := stop }

/-- Serialization `toml::to_string::<WinstonConfig>`: serializes every field, in struct
order, with its schema type. -/
def encodeWinstonConfig (c : WinstonConfig) : List (String × TomlValue) :=
  [("openai_org_id", .str c.openai_org_id),
   ("openai_api_key", .str c.openai_api_key),
   ("api_endpoint", .str c.api_endpoint),
   ("model", .str c.model),
   ("max_tokens", .int (Int.ofNat c.max_tokens)),
   ("temperature", .float c.temperature),
   ("top_p", .float c.top_p),
   ("frequency_penalty", .float c.frequency_penalty),
   ("presence_penalty", .float c.presence_penalty),
   ("stop", .str c.stop)]

/-- Rust `WinstonConfigBuilder::load_config`: `read_to_string(fp).unwrap()`
(panics when the file is missing), `toml::from_str(..).unwrap()` (panics
when the text is malformed or a known key has a wrong-typed value), then
the per-field merge in which file values replace builder values. -/
def WinstonConfigBuilder.load_config (self : WinstonConfigBuilder)
    (fp : List String) (fs : FS) : PanicOr WinstonConfigBuilder :=
  match fs.read fp with
  | none =>
      .panics "called Result.unwrap on an Err value: No such file or directory"
  | some .malformed =>
      .panics "called Result.unwrap on an Err value: TOML parse error"
  | some (.table kvs) =>
      match decodeWinstonConfigBuilder kvs with
      | .error e => .panics ("called Result.unwrap on an Err value: " ++ e)
      | .ok config => .ok (self.mergeFrom config)

/-- Rust `WinstonConfig::save_config`: resolve the optional path against
`dirs::config_dir()` (erroring when that is `None`), serialize with
`toml::to_string`, then `File::create` + `write_all`.  `File::create`
fails when the parent directory does not exist; it does not create
parent directories, and the write is a plain truncate-and-write. -/
def WinstonConfig.save_config (self : WinstonConfig)
    (fp : Option (List String)) (configDir : Option (List String))
    (fs : FS) : Except String FS :=
  match fp with
  | some fp =>
      if fs.dirExists fp.dropLast then
        .ok (fs.write fp (.table (encodeWinstonConfig self)))
      else
        .error "IoError: No such file or directory"
  | none =>
      match configDir with
      | none => .error "Could not find config directory"
      | some d =>
          let fp := d ++ ["winston", "config.toml"]
          if fs.dirExists fp.dropLast then
            .ok (fs.write fp (.table (encodeWinstonConfig self)))
          else
            .error "IoError: No such file or directory"

/-- The builder pipeline used by `WinstonConfig::load_config`:
`WinstonConfigBuilder::new().load_config(&fp).build()`, starting from an
arbitrary builder. -/
def load_then_build (b : WinstonConfigBuilder) (fp : List String)
    (fs : FS) : BuildResult :=
  match b.load_config fp fs with
  | .panics m => .panics m
  | .ok b2 => b2.build

end Cfg

namespace Cli

/-! Embedding of src/cli.rs. -/

/-- The raw command-line flag values actually given on the command line:
`none` when a flag was not passed. -/
structure CliArgs where
  openai_endpoint : Option String
  openai_api_key : Option String
  openai_model : Option String
  openai_max_tokens : Option Nat
  openai_temperature : Option Rat
  openai_top_p : Option Rat
  stop : Option String
  frequency_penalty : Option Rat
  presence_penalty : Option Rat
deriving Repr, DecidableEq

/-- The parsed `Options` struct of src/cli.rs. -/
structure Options where
  openai_endpoint : String
  openai_api_key : String
  openai_model : String
  openai_max_tokens : Nat
  openai_temperature : Rat
  openai_top_p : Rat
  stop : String
  frequency_penalty : Rat
  presence_penalty : Rat
deriving Repr, DecidableEq

/-- Rust `Options::parse`, modelled from the clap library's documented
precedence for the attributes used in src/cli.rs: an explicitly supplied
command-line value wins over the `env = ...` variable, which wins over
`default_value_t`.  Only `openai_api_key` (env OPENAI_API_KEY, no
default, hence required) and `openai_model` (env OPENAI_MODEL) carry an
env attribute; the other flags fall back directly to their defaults. -/
def Options.parse (args : CliArgs) (env : String → Option String) :
    Except String Options :=
  match args.openai_api_key.or (env "OPENAI_API_KEY") with
  | none =>
      .error "the following required arguments were not provided: --openai-api-key"
  | some openai_api_key =>
      .ok { openai_endpoint := args.openai_endpoint.getD Cfg.OPENAI_ENDPOINT
            openai_api_key := openai_api_key
            openai_model := (args.openai_model.or (env "OPENAI_MODEL")).getD Cfg.MODEL
            openai_max_tokens := args.openai_max_tokens.getD Cfg.MAX_TOKENS
            openai_temperature := args.openai_temperature.getD Cfg.TEMPERATURE
            openai_top_p := args.openai_top_p.getD Cfg.TOP_P
            stop := args.stop.getD Cfg.STOP
            frequency_penalty := args.frequency_penalty.getD Cfg.FREQUENCY_PENALTY
            presence_penalty := args.presence_penalty.getD Cfg.PRESENCE_PENALTY }

end Cli

namespace Lib

/-! Embedding of src/lib.rs. -/

def MODEL : String := "davinci"

def MAX_TOKENS : Nat := 2048

def TEMPERATURE : Rat := 0.7

def TOP_P : Rat := 1.0

def FREQUENCY_PENALTY : Rat := 0.5

def PRESENCE_PENALTY : Rat := 0.5

def TIMEOUT : Rat := 0.5

/-- The `Config` struct of src/lib.rs: every field optional. -/
structure Config where
  api_key : Option String
  model : Option String
  max_tokens : Option Nat
  temperature : Option Rat
  top_p : Option Rat
  frequency_penalty : Option Rat
  presence_penalty : Option Rat
  stop_sequence : Option String
  timeout : Option Rat
deriving Repr, DecidableEq

/-- Rust `Config::default`: `api_key` and `stop_sequence` absent, every other
field populated with its built-in constant. -/
def Config.default : Config :=
  { api_key := none, model := some MODEL, max_tokens := some MAX_TOKENS,
    temperature := some TEMPERATURE, top_p := some TOP_P,
    frequency_penalty := some FREQUENCY_PENALTY,
    presence_penalty := some PRESENCE_PENALTY,
    stop_sequence := none, timeout := some TIMEOUT }

/-- serde field access for an optional `usize` field (64-bit):
nonnegative integers up to usize::MAX deserialize, negative or oversized
integers and other value types error. -/
def getUsize (kvs : List (String × TomlValue)) (k : String) :
    Except String (Option Nat) :=
  match kvs.lookup k with
  | none => .ok none
  | some (.int (.ofNat m)) =>
      if m < 18446744073709551616 then .ok (some m)
      else .error ("out of range value for key " ++ k)
  | some (.int (.negSucc _)) => .error ("out of range value for key " ++ k)
  | some _ => .error ("invalid type for key " ++ k)

/-- Deserialization `toml::from_str::<Config>`: unknown keys ignored, wrong value types
are deserialization errors, absent keys give `None`. -/
def decodeConfig (kvs : List (String × TomlValue)) : Except String Config :=
  Except.bind (Cfg.getStr kvs "api_key") fun api_key =>
  Except.bind (Cfg.getStr kvs "model") fun model =>
  Except.bind (getUsize kvs "max_tokens") fun max_tokens =>
  Except.bind (Cfg.getFloat kvs "temperature") fun temperature =>
  Except.bind (Cfg.getFloat kvs "top_p") fun top_p =>
  Except.bind (Cfg.getFloat kvs "frequency_penalty") fun frequency_penalty =>
  Except.bind (Cfg.getFloat kvs "presence_penalty") fun presence_penalty =>
  Except.bind (Cfg.getStr kvs "stop_sequence") fun stop_sequence =>
  Except.bind (Cfg.getFloat kvs "timeout") fun timeout =>
  Except.ok { api_key := api_key, model := model, max_tokens := max_tokens,
              temperature := temperature, top_p := top_p,
              frequency_penalty := frequency_penalty,
              presence_penalty := presence_penalty,
              stop_sequence := stop_sequence, timeout := timeout }

/-- Rust `Config::get_config_path`: if XDG_CONFIG_HOME is set, canonicalize
its value (an io error when the path does not exist — there is no
fallback to HOME in that case); otherwise read HOME (an env error when
unset), canonicalize it, and push ".config"; finally push
"winston/config.toml".  The `fsc` parameter is `std::fs::canonicalize`:
`some` canonical form exactly when the path exists. -/
def Config.get_config_path (env : String → Option (List String))
    (fsc : List String → Option (List String)) :
    Except String (List String) :=
  match env "XDG_CONFIG_HOME" with
  | some config_path =>
      match fsc config_path with
      | some canon => .ok (canon ++ ["winston", "config.toml"])
      | none => .error "No such file or directory"
  | none =>
      match env "HOME" with
      | none => .error "environment variable not found"
      | some home =>
          match fsc home with
          | none => .error "No such file or directory"
          | some canon => .ok ((canon ++ [".config"]) ++ ["winston", "config.toml"])

/-- Rust `Config::load_config`: resolve the path (explicit argument or
`get_config_path`); if the file exists, read and TOML-parse it into a
`Config` (propagating parse errors with `?`); if it does not exist,
return `Config::default()`. -/
def Config.load_config (self : Config) (config_file : Option (List String))
    (env : String → Option (List String))
    (fsc : List String → Option (List String)) (fs : FS) :
    Except String Config :=
  match (match config_file with
         | some f => Except.ok f
         | none => Config.get_config_path env fsc) with
  | .error e => .error e
  | .ok filepath =>
      match fs.read filepath with
      | none => .ok Config.default
      | some .malformed => .error "TOML parse error"
      | some (.table kvs) => decodeConfig kvs

end Lib

end Winston

open Winston Winston.Cfg

/-! Claim theorems. -/

/-- C10: for every builder state with `openai_org_id` absent,
`WinstonConfigBuilder::build` panics with "Missing OpenAI Organization
ID", even when the API key and every other field are supplied. -/
theorem c10_build_requires_org_id (b : WinstonConfigBuilder)
    (h : b.openai_org_id = none) :
    b.build = .panics "Missing OpenAI Organization ID" := by
  rcases b with ⟨o, k, e, m, mt, t, tp, fq, pr, s⟩
  cases o with
  | none => rfl
  | some v => exact absurd h (by simp)

/-- A builder with every field supplied except the organization id. -/
def bC10 : WinstonConfigBuilder :=
  { openai_org_id := none, openai_api_key := some "sk-10",
    api_endpoint := some "https://api.openai.com", model := some "gpt-4",
    max_tokens := some 100, temperature := some 0.9, top_p := some 1.0,
    frequency_penalty := some 0.0, presence_penalty := some 0.0,
    stop := some "\n" }

/-- Witness for C10 at a fully populated builder lacking only the org id. -/
theorem c10_build_requires_org_id_witness :
    bC10.build = .panics "Missing OpenAI Organization ID" :=
  c10_build_requires_org_id bC10 rfl

/-- C2 counterexample: with the organization id present but no source
supplying `openai_api_key`, `build` terminates abnormally (an `expect`
panic with "Missing OpenAI API Key"); it does not return an error value,
refuting the claim that resolution returns a MissingCredential error. -/
def bC2 : WinstonConfigBuilder :=
  { openai_org_id := some "org-xyz", openai_api_key := none,
    api_endpoint := some "https://api.openai.com", model := some "davinci",
    max_tokens := some 64, temperature := some 0.9, top_p := some 1.0,
    frequency_penalty := some 0.0, presence_penalty := some 0.0,
    stop := some "\n" }

/-- C2 counterexample theorem: the concrete builder `bC2` (all fields
supplied except the API key) makes `build` panic rather than return. -/
theorem c2_missing_key_counterexample :
    bC2.build = .panics "Missing OpenAI API Key" := rfl

/-- C2 amended: when `openai_org_id` is supplied (so its own `expect`
passes first) and no source supplies `openai_api_key`, `build` panics
with "Missing OpenAI API Key" — an abnormal termination, not a returned
error — and no default is substituted for the credential. -/
theorem c2_missing_key_panics (b : WinstonConfigBuilder)
    (h1 : b.openai_org_id.isSome = true) (h2 : b.openai_api_key = none) :
    b.build = .panics "Missing OpenAI API Key" := by
  rcases b with ⟨o, k, e, m, mt, t, tp, fq, pr, s⟩
  cases o with
  | none => exact absurd h1 (by simp)
  | some v =>
    cases k with
    | none => rfl
    | some w => exact absurd h2 (by simp)

/-- Witness for the amended C2 at the concrete builder `bC2`. -/
theorem c2_missing_key_panics_witness :
    bC2.build = .panics "Missing OpenAI API Key" :=
  c2_missing_key_panics bC2 rfl rfl

/-- C3: whenever `build` returns a record, every field that no source
supplied (builder field `none`) comes out equal to its built-in default,
exactly. -/
theorem c3_default_fill (b : WinstonConfigBuilder) (c : WinstonConfig)
    (hc : b.build = .ok c) :
    (b.api_endpoint = none → c.api_endpoint = OPENAI_ENDPOINT) ∧
    (b.model = none → c.model = MODEL) ∧
    (b.max_tokens = none → c.max_tokens = MAX_TOKENS) ∧
    (b.temperature = none → c.temperature = TEMPERATURE) ∧
    (b.top_p = none → c.top_p = TOP_P) ∧
    (b.frequency_penalty = none → c.frequency_penalty = FREQUENCY_PENALTY) ∧
    (b.presence_penalty = none → c.presence_penalty = PRESENCE_PENALTY) ∧
    (b.stop = none → c.stop = STOP) := by
  rcases b with ⟨o, k, e, m, mt, t, tp, fq, pr, s⟩
  cases o with
  | none => exact absurd hc (by simp [WinstonConfigBuilder.build])
  | some org =>
    cases k with
    | none => exact absurd hc (by simp [WinstonConfigBuilder.build])
    | some key =>
      simp only [WinstonConfigBuilder.build, BuildResult.ok.injEq] at hc
      subst hc
      exact ⟨fun h => by subst h; rfl, fun h => by subst h; rfl,
             fun h => by subst h; rfl, fun h => by subst h; rfl,
             fun h => by subst h; rfl, fun h => by subst h; rfl,
             fun h => by subst h; rfl, fun h => by subst h; rfl⟩

/-- A builder holding only the two required credentials. -/
def bC3 : WinstonConfigBuilder :=
  { WinstonConfigBuilder.new with
    openai_org_id := some "org-3", openai_api_key := some "sk-3" }

/-- The record `bC3` builds to: all optional fields at their defaults. -/
def cC3 : WinstonConfig :=
  { openai_org_id := "org-3", openai_api_key := "sk-3",
    api_endpoint := OPENAI_ENDPOINT, model := MODEL,
    max_tokens := MAX_TOKENS, temperature := TEMPERATURE, top_p := TOP_P,
    frequency_penalty := FREQUENCY_PENALTY,
    presence_penalty := PRESENCE_PENALTY, stop := STOP }

/-- Witness for C3: the fully-defaulted build of `bC3` hits every
built-in default. -/
theorem c3_default_fill_witness :
    cC3.api_endpoint = OPENAI_ENDPOINT ∧ cC3.model = MODEL ∧
    cC3.max_tokens = MAX_TOKENS ∧ cC3.temperature = TEMPERATURE ∧
    cC3.top_p = TOP_P ∧ cC3.frequency_penalty = FREQUENCY_PENALTY ∧
    cC3.presence_penalty = PRESENCE_PENALTY ∧ cC3.stop = STOP := by
  have h := c3_default_fill bC3 cC3 rfl
  exact ⟨h.1 rfl, h.2.1 rfl, h.2.2.1 rfl, h.2.2.2.1 rfl, h.2.2.2.2.1 rfl,
         h.2.2.2.2.2.1 rfl, h.2.2.2.2.2.2.1 rfl, h.2.2.2.2.2.2.2 rfl⟩

/-- A builder as left by a file supplying temperature = 3.5 (plus the
two required credentials). -/
def bC6 : WinstonConfigBuilder :=
  { WinstonConfigBuilder.new with
    openai_org_id := some "org-1",
    openai_api_key := some "sk-1", temperature := some 3.5 }

/-- The record `bC6` builds to, temperature 3.5 included. -/
def cC6 : WinstonConfig :=
  { openai_org_id := "org-1", openai_api_key := "sk-1",
    api_endpoint := OPENAI_ENDPOINT, model := MODEL,
    max_tokens := MAX_TOKENS, temperature := 3.5, top_p := TOP_P,
    frequency_penalty := FREQUENCY_PENALTY,
    presence_penalty := PRESENCE_PENALTY, stop := STOP }

/-- C6 counterexample: a merge whose file supplied temperature = 3.5
resolves with `Ok`, the out-of-range value 3.5 lands unchanged in the
final record, and no error of any kind is produced — the code exposes no
`validate` operation, so the claimed OutOfRange failure never happens. -/
theorem c6_no_validate_counterexample :
    bC6.build = .ok cC6 ∧
    ¬((0 : Rat) ≤ cC6.temperature ∧ cC6.temperature ≤ 2) := by
  exact ⟨rfl, by norm_num [cC6]⟩

/-- C6 amended: `build` performs no range validation — whatever
temperature a source supplied, in range or not, is carried into the
successfully built record unchanged. -/
theorem c6_no_range_check (b : WinstonConfigBuilder) (t : Rat)
    (ht : b.temperature = some t) (c : WinstonConfig)
    (hc : b.build = .ok c) : c.temperature = t := by
  rcases b with ⟨o, k, e, m, mt, tmp, tp, fq, pr, s⟩
  cases o with
  | none => exact absurd hc (by simp [WinstonConfigBuilder.build])
  | some org =>
    cases k with
    | none => exact absurd hc (by simp [WinstonConfigBuilder.build])
    | some key =>
      simp only [WinstonConfigBuilder.build, BuildResult.ok.injEq] at hc
      subst hc
      simp only at ht
      subst ht
      rfl

/-- Witness for the amended C6 at temperature 3.5. -/
theorem c6_no_range_check_witness : cC6.temperature = 3.5 :=
  c6_no_range_check bC6 3.5 rfl cC6 rfl

/-- A filesystem whose config file supplies model = "gpt-4-file". -/
def fsC1 : FS :=
  ⟨[], [(["cfg.toml"], .table [("model", .str "gpt-4-file")])]⟩

/-- A builder already holding a model value from a higher-priority
source (the environment, via clap) before the file is merged in. -/
def bC1 : WinstonConfigBuilder :=
  { WinstonConfigBuilder.new with
    openai_org_id := some "org-A",
    openai_api_key := some "sk-env",
    model := some "model-from-env" }

/-- The record the pipeline actually produces for `bC1` and `fsC1`. -/
def cC1 : WinstonConfig :=
  { openai_org_id := "org-A", openai_api_key := "sk-env",
    api_endpoint := OPENAI_ENDPOINT, model := "gpt-4-file",
    max_tokens := MAX_TOKENS, temperature := TEMPERATURE, top_p := TOP_P,
    frequency_penalty := FREQUENCY_PENALTY,
    presence_penalty := PRESENCE_PENALTY, stop := STOP }

/-- C1 counterexample: the builder holds model = "model-from-env"
(environment-supplied) and the file supplies model = "gpt-4-file"; after
`load_config` and `build` the final record's model is the FILE value,
not the environment value, refuting env-over-file priority. -/
theorem c1_env_file_counterexample :
    load_then_build bC1 ["cfg.toml"] fsC1 = .ok cC1 ∧
    cC1.model = "gpt-4-file" := ⟨rfl, rfl⟩

/-- C1 amended: within clap parsing, a CLI-supplied value beats the env
variable (api key and model) and env beats the built-in default (model);
but `WinstonConfigBuilder::load_config` merges the file layer on top of
the builder — per field, the file value wins over whatever the builder
already holds — so when both env and file supply a field the file value
is the one in the final record. -/
theorem c1_priority_amended :
    (∀ (args : Cli.CliArgs) (env : String → Option String) (o : Cli.Options)
       (k : String),
       Cli.Options.parse args env = .ok o → args.openai_api_key = some k →
       o.openai_api_key = k) ∧
    (∀ (args : Cli.CliArgs) (env : String → Option String) (o : Cli.Options)
       (m : String),
       Cli.Options.parse args env = .ok o → args.openai_model = some m →
       o.openai_model = m) ∧
    (∀ (args : Cli.CliArgs) (env : String → Option String) (o : Cli.Options)
       (m : String),
       Cli.Options.parse args env = .ok o → args.openai_model = none →
       env "OPENAI_MODEL" = some m → o.openai_model = m) ∧
    (∀ (b config : WinstonConfigBuilder),
       b.mergeFrom config =
         { openai_org_id := config.openai_org_id.or b.openai_org_id,
           openai_api_key := config.openai_api_key.or b.openai_api_key,
           api_endpoint := config.api_endpoint.or b.api_endpoint,
           model := config.model.or b.model,
           max_tokens := config.max_tokens.or b.max_tokens,
           temperature := config.temperature.or b.temperature,
           top_p := config.top_p.or b.top_p,
           frequency_penalty := config.frequency_penalty.or b.frequency_penalty,
           presence_penalty := config.presence_penalty.or b.presence_penalty,
           stop := config.stop.or b.stop }) := by
  refine ⟨?_, ?_, ?_, ?_⟩
  · intro args env o k hp hk
    unfold Cli.Options.parse at hp
    rw [hk] at hp
    simp only [Option.or] at hp
    cases hp
    rfl
  · intro args env o m hp hm
    unfold Cli.Options.parse at hp
    cases he : args.openai_api_key.or (env "OPENAI_API_KEY") with
    | none => rw [he] at hp; exact absurd hp (by simp)
    | some key =>
      rw [he] at hp
      simp only at hp
      cases hp
      simp only [hm, Option.or, Option.getD]
  · intro args env o m hp hm henv
    unfold Cli.Options.parse at hp
    cases he : args.openai_api_key.or (env "OPENAI_API_KEY") with
    | none => rw [he] at hp; exact absurd hp (by simp)
    | some key =>
      rw [he] at hp
      simp only at hp
      cases hp
      simp only [hm, henv, Option.or, Option.getD]
  · intro b config
    rcases config with ⟨o, k, e, m, mt, t, tp, fq, pr, s⟩
    cases o <;> cases k <;> cases e <;> cases m <;> cases mt <;> cases t <;>
      cases tp <;> cases fq <;> cases pr <;> cases s <;> rfl

/-- Environment snapshot supplying both env-backed variables. -/
def envW : String → Option String :=
  fun k => if k = "OPENAI_API_KEY" then some "sk-env2"
           else if k = "OPENAI_MODEL" then some "m-env" else none

/-- CLI args with api key and model both given on the command line. -/
def argsW : Cli.CliArgs :=
  { openai_endpoint := none, openai_api_key := some "sk-cli",
    openai_model := some "m-cli", openai_max_tokens := none,
    openai_temperature := none, openai_top_p := none, stop := none,
    frequency_penalty := none, presence_penalty := none }

/-- Same args but the model flag not given, so env supplies it. -/
def argsW2 : Cli.CliArgs := { argsW with openai_model := none }

/-- The options `argsW` parse to. -/
def oW : Cli.Options :=
  { openai_endpoint := OPENAI_ENDPOINT, openai_api_key := "sk-cli",
    openai_model := "m-cli", openai_max_tokens := MAX_TOKENS,
    openai_temperature := TEMPERATURE, openai_top_p := TOP_P, stop := STOP,
    frequency_penalty := FREQUENCY_PENALTY,
    presence_penalty := PRESENCE_PENALTY }

/-- The options `argsW2` parse to: model falls back to the env value. -/
def oW2 : Cli.Options := { oW with openai_model := "m-env" }

/-- A builder holding env-derived values before the file merge. -/
def bW : WinstonConfigBuilder :=
  { WinstonConfigBuilder.new with
    model := some "from-env", top_p := some 0.5 }

/-- The file-derived builder supplying only a model. -/
def cfgW : WinstonConfigBuilder :=
  { WinstonConfigBuilder.new with model := some "from-file" }

/-- The merge of `bW` with `cfgW`: the file's model wins. -/
def mW : WinstonConfigBuilder :=
  { WinstonConfigBuilder.new with
    model := some "from-file", top_p := some 0.5 }

/-- Witness for the amended C1, exercising each conjunct at concrete
inputs. -/
theorem c1_priority_amended_witness :
    oW.openai_api_key = "sk-cli" ∧ oW.openai_model = "m-cli" ∧
    oW2.openai_model = "m-env" ∧ bW.mergeFrom cfgW = mW :=
  ⟨c1_priority_amended.1 argsW envW oW "sk-cli" rfl rfl,
   c1_priority_amended.2.1 argsW envW oW "m-cli" rfl rfl,
   c1_priority_amended.2.2.1 argsW2 envW oW2 "m-env" rfl rfl rfl,
   (c1_priority_amended.2.2.2 bW cfgW).trans rfl⟩

/-- Deserializing the serialization of a full record recovers every field
as present (u32 range check discharged by the u32 bound). -/
theorem decode_encode_winston (R : WinstonConfig)
    (h : R.max_tokens < 4294967296) :
    decodeWinstonConfigBuilder (encodeWinstonConfig R) =
      .ok { openai_org_id := some R.openai_org_id,
            openai_api_key := some R.openai_api_key,
            api_endpoint := some R.api_endpoint, model := some R.model,
            max_tokens := some R.max_tokens,
            temperature := some R.temperature, top_p := some R.top_p,
            frequency_penalty := some R.frequency_penalty,
            presence_penalty := some R.presence_penalty,
            stop := some R.stop } := by
  have e5 : getU32 (encodeWinstonConfig R) "max_tokens" =
      .ok (some R.max_tokens) := by
    show (if R.max_tokens < 4294967296 then Except.ok (some R.max_tokens)
          else Except.error ("out of range value for key " ++ "max_tokens")) =
         Except.ok (some R.max_tokens)
    rw [if_pos h]
  have e1 : getStr (encodeWinstonConfig R) "openai_org_id" =
      .ok (some R.openai_org_id) := rfl
  have e2 : getStr (encodeWinstonConfig R) "openai_api_key" =
      .ok (some R.openai_api_key) := rfl
  have e3 : getStr (encodeWinstonConfig R) "api_endpoint" =
      .ok (some R.api_endpoint) := rfl
  have e4 : getStr (encodeWinstonConfig R) "model" = .ok (some R.model) := rfl
  have e6 : getFloat (encodeWinstonConfig R) "temperature" =
      .ok (some R.temperature) := rfl
  have e7 : getFloat (encodeWinstonConfig R) "top_p" = .ok (some R.top_p) := rfl
  have e8 : getFloat (encodeWinstonConfig R) "frequency_penalty" =
      .ok (some R.frequency_penalty) := rfl
  have e9 : getFloat (encodeWinstonConfig R) "presence_penalty" =
      .ok (some R.presence_penalty) := rfl
  have e10 : getStr (encodeWinstonConfig R) "stop" = .ok (some R.stop) := rfl
  simp only [decodeWinstonConfigBuilder, e1, e2, e3, e4, e5, e6, e7, e8, e9,
             e10, Except.bind]

/-- C5: saving a record (to a path whose parent directory exists, so the
save succeeds) and then running the loader pipeline on that path —
`WinstonConfigBuilder::new().load_config(&fp).build()`, i.e. the loaded
file merged with no other sources — reproduces the record exactly. -/
theorem c5_save_load_roundtrip (R : WinstonConfig) (fp : List String)
    (fs : FS) (hdir : fs.dirExists fp.dropLast = true)
    (hmt : R.max_tokens < 4294967296) :
    (R.save_config (some fp) none fs).map
      (fun fs2 => load_then_build WinstonConfigBuilder.new fp fs2) =
      .ok (.ok R) := by
  have hread : (fs.write fp (.table (encodeWinstonConfig R))).read fp =
      some (.table (encodeWinstonConfig R)) := by
    simp [FS.read, FS.write, List.lookup]
  simp only [WinstonConfig.save_config, hdir, if_true, Except.map,
             load_then_build, WinstonConfigBuilder.load_config, hread,
             decode_encode_winston R hmt]
  rfl

/-- A concrete record, path and filesystem for the round-trip witness. -/
def rC5 : WinstonConfig :=
  { openai_org_id := "org-5", openai_api_key := "sk-5",
    api_endpoint := "https://api.openai.com", model := "gpt-4",
    max_tokens := 100, temperature := 0.7, top_p := 0.25,
    frequency_penalty := 0.5, presence_penalty := 0.5, stop := "\n" }

def fpC5 : List String := ["home", "u", ".config", "winston", "config.toml"]

def fsC5 : FS := ⟨[["home", "u", ".config", "winston"]], []⟩

/-- Witness for C5 at a concrete record and path. -/
theorem c5_save_load_roundtrip_witness :
    (rC5.save_config (some fpC5) none fsC5).map
      (fun fs2 => load_then_build WinstonConfigBuilder.new fpC5 fs2) =
      .ok (.ok rC5) :=
  c5_save_load_roundtrip rC5 fpC5 fsC5 rfl (by norm_num [rC5])

/-- A record to save in the C8 scenario. -/
def rC8 : WinstonConfig :=
  { openai_org_id := "org-8", openai_api_key := "sk-8",
    api_endpoint := "https://api.openai.com", model := "davinci",
    max_tokens := 64, temperature := 0.9, top_p := 1.0,
    frequency_penalty := 0.0, presence_penalty := 0.0, stop := "\n" }

/-- A filesystem with no directories at all. -/
def fsC8 : FS := ⟨[], []⟩

/-- C8 counterexample: the target's parent directory
["etc", "winston"] does not exist, and `save_config` fails with an io
error instead of creating the parent directories as claimed. -/
theorem c8_no_parent_dirs_counterexample :
    rC8.save_config (some ["etc", "winston", "config.toml"]) none fsC8 =
      .error "IoError: No such file or directory" := rfl

/-- C8 amended: `save_config` writes with `File::create` + `write_all`;
it does NOT create absent parent directories — whenever the parent
directory of the target path is missing it fails with an io error (and
the overwrite it performs when the parent exists is a plain
truncate-and-write, with no atomic rename). -/
theorem c8_save_requires_parent (c : WinstonConfig) (fp : List String)
    (configDir : Option (List String)) (fs : FS)
    (h : fs.dirExists fp.dropLast = false) :
    c.save_config (some fp) configDir fs =
      .error "IoError: No such file or directory" := by
  simp [WinstonConfig.save_config, h]

/-- A filesystem holding one unrelated directory. -/
def fsC8b : FS := ⟨[["other"]], []⟩

/-- Witness for the amended C8 at a second concrete path and filesystem. -/
theorem c8_save_requires_parent_witness :
    rC8.save_config (some ["etc", "config.toml"]) none fsC8b =
      .error "IoError: No such file or directory" :=
  c8_save_requires_parent rC8 ["etc", "config.toml"] none fsC8b rfl

/-- An environment snapshot with no variables set. -/
def envNone : String → Option (List String) := fun _ => none

/-- A canonicalizer over an empty filesystem: no path exists. -/
def fscNone : List String → Option (List String) := fun _ => none

/-- A filesystem with no files. -/
def fsEmpty : FS := ⟨[], []⟩

/-- C4 counterexample: loading from a nonexistent path returns `Ok`, but
the returned value is `Config::default()` — whose model field (like its
other generation fields) is populated, not absent — refuting the claim
that a missing file yields an empty partial configuration. -/
theorem c4_missing_file_counterexample :
    Lib.Config.default.load_config (some ["nope.toml"]) envNone fscNone
      fsEmpty = .ok Lib.Config.default ∧
    Lib.Config.default.model = some "davinci" := ⟨rfl, rfl⟩

/-- C4 amended: on a nonexistent path `Config::load_config` returns
`Ok(Config::default())` — not an error, but not an all-absent partial
config either (only `api_key` and `stop_sequence` are absent; the other
fields carry the built-in defaults) — while the builder-based
`WinstonConfigBuilder::load_config` panics on a missing file. -/
theorem c4_missing_file_default :
    (∀ (self : Lib.Config) (p : List String)
       (env : String → Option (List String))
       (fsc : List String → Option (List String)) (fs : FS),
       fs.read p = none →
       self.load_config (some p) env fsc fs = .ok Lib.Config.default) ∧
    (∀ (b : WinstonConfigBuilder) (fp : List String) (fs : FS),
       fs.read fp = none →
       b.load_config fp fs =
         .panics "called Result.unwrap on an Err value: No such file or directory") := by
  constructor
  · intro self p env fsc fs h
    simp only [Lib.Config.load_config, h]
  · intro b fp fs h
    simp only [WinstonConfigBuilder.load_config, h]

/-- Witness for the amended C4, exercising both loaders at a concrete
missing path. -/
theorem c4_missing_file_default_witness :
    Lib.Config.default.load_config (some ["w.toml"]) envNone fscNone
      fsEmpty = .ok Lib.Config.default ∧
    WinstonConfigBuilder.new.load_config ["w.toml"] fsEmpty =
      .panics "called Result.unwrap on an Err value: No such file or directory" :=
  ⟨c4_missing_file_default.1 Lib.Config.default ["w.toml"] envNone fscNone
     fsEmpty rfl,
   c4_missing_file_default.2 WinstonConfigBuilder.new ["w.toml"] fsEmpty rfl⟩

/-- Environment for the C7 counterexample: XDG_CONFIG_HOME names a path
that does not exist, HOME names one that does. -/
def envC7 : String → Option (List String) :=
  fun k => if k = "XDG_CONFIG_HOME" then some ["dangling"]
           else if k = "HOME" then some ["home", "user"] else none

/-- Canonicalizer for the C7 counterexample: only /home/user exists. -/
def fscC7 : List String → Option (List String) :=
  fun p => if p = ["home", "user"] then some ["home", "user"] else none

/-- C7 counterexample: with the override variable set but naming a
nonexistent path and a perfectly usable home directory available,
`get_config_path` fails with an io error instead of falling back to
<home>/.config/winston/config.toml as the claim requires. -/
theorem c7_xdg_no_fallback_counterexample :
    Lib.Config.get_config_path envC7 fscC7 =
      .error "No such file or directory" := rfl

/-- C7 amended: when XDG_CONFIG_HOME is set and canonicalizes (names an
existing path) the result is <canonical value>/winston/config.toml; when
it is set but does not canonicalize the call fails with an io error —
there is no fallback to the home directory; when it is unset the result
is <canonical HOME>/.config/winston/config.toml, HOME being required to
be set and to exist; the failures are untyped io/env errors, not a
dedicated NoHomeDirectory error. -/
theorem c7_config_path_characterization
    (env : String → Option (List String))
    (fsc : List String → Option (List String)) :
    Lib.Config.get_config_path env fsc =
      match env "XDG_CONFIG_HOME" with
      | some p =>
        match fsc p with
        | some canon => .ok (canon ++ ["winston", "config.toml"])
        | none => .error "No such file or directory"
      | none =>
        match env "HOME" with
        | some h =>
          match fsc h with
          | some canon => .ok (canon ++ [".config", "winston", "config.toml"])
          | none => .error "No such file or directory"
        | none => .error "environment variable not found" := by
  unfold Lib.Config.get_config_path
  rcases hx : env "XDG_CONFIG_HOME" with _ | p
  · rcases hh : env "HOME" with _ | hm
    · simp [hx, hh]
    · rcases hf : fsc hm with _ | canon <;> simp [hx, hh, hf]
  · rcases hf : fsc p with _ | canon <;> simp [hx, hf]

/-- The ten field names serde recognizes for `WinstonConfigBuilder`. -/
def winstonKeys : List String :=
  ["openai_org_id", "openai_api_key", "api_endpoint", "model", "max_tokens",
   "temperature", "top_p", "frequency_penalty", "presence_penalty", "stop"]

/-- Looking a key up past an entry with a different key skips it. -/
theorem lookup_cons_ne {β : Type} (key k : String) (v : β)
    (kvs : List (String × β)) (h : key ≠ k) :
    List.lookup key ((k, v) :: kvs) = List.lookup key kvs := by
  simp [List.lookup, beq_eq_false_iff_ne.mpr h]

/-- Function `getStr` ignores a leading entry with a different key. -/
theorem getStr_cons_ne (k : String) (v : TomlValue)
    (kvs : List (String × TomlValue)) (key : String) (h : key ≠ k) :
    getStr ((k, v) :: kvs) key = getStr kvs key := by
  unfold getStr
  rw [lookup_cons_ne key k v kvs h]

/-- Function `getU32` ignores a leading entry with a different key. -/
theorem getU32_cons_ne (k : String) (v : TomlValue)
    (kvs : List (String × TomlValue)) (key : String) (h : key ≠ k) :
    getU32 ((k, v) :: kvs) key = getU32 kvs key := by
  unfold getU32
  rw [lookup_cons_ne key k v kvs h]

/-- Function `getFloat` ignores a leading entry with a different key. -/
theorem getFloat_cons_ne (k : String) (v : TomlValue)
    (kvs : List (String × TomlValue)) (key : String) (h : key ≠ k) :
    getFloat ((k, v) :: kvs) key = getFloat kvs key := by
  unfold getFloat
  rw [lookup_cons_ne key k v kvs h]

/-- A config file whose known key `model` carries an integer instead of
a string. -/
def fsC9 : FS := ⟨[], [(["c9.toml"], .table [("model", .int 5)])]⟩

/-- C9 counterexample: on a file whose known key `model` has the wrong
value type, `WinstonConfigBuilder::load_config` does not return an
error — it panics (the `toml::from_str(..).unwrap()` fires), an
abnormal termination. -/
theorem c9_wrong_type_panics_counterexample :
    WinstonConfigBuilder.new.load_config ["c9.toml"] fsC9 =
      .panics "called Result.unwrap on an Err value: invalid type for key model" :=
  rfl

/-- C9 amended: unknown keys in the file are ignored by the
deserializer; a known key with a wrong-typed value makes the
deserialization fail, which `Config::load_config` (lib.rs) propagates as
a returned error but `WinstonConfigBuilder::load_config` (config.rs)
turns into a panic via `unwrap`. -/
theorem c9_load_error_behavior :
    (∀ (k : String) (v : TomlValue) (kvs : List (String × TomlValue)),
       ¬ k ∈ winstonKeys →
       decodeWinstonConfigBuilder ((k, v) :: kvs) =
         decodeWinstonConfigBuilder kvs) ∧
    (∀ (self : Lib.Config) (p : List String)
       (env : String → Option (List String))
       (fsc : List String → Option (List String)) (fs : FS)
       (kvs : List (String × TomlValue)) (e : String),
       fs.read p = some (.table kvs) → Lib.decodeConfig kvs = .error e →
       self.load_config (some p) env fsc fs = .error e) ∧
    (∀ (b : WinstonConfigBuilder) (fp : List String) (fs : FS)
       (kvs : List (String × TomlValue)) (e : String),
       fs.read fp = some (.table kvs) →
       decodeWinstonConfigBuilder kvs = .error e →
       b.load_config fp fs =
         .panics ("called Result.unwrap on an Err value: " ++ e)) := by
  refine ⟨?_, ?_, ?_⟩
  · intro k v kvs h
    simp only [winstonKeys, List.mem_cons, List.not_mem_nil, or_false,
               not_or] at h
    obtain ⟨h1, h2, h3, h4, h5, h6, h7, h8, h9, h10⟩ := h
    unfold decodeWinstonConfigBuilder
    rw [getStr_cons_ne k v kvs "openai_org_id" (Ne.symm h1),
        getStr_cons_ne k v kvs "openai_api_key" (Ne.symm h2),
        getStr_cons_ne k v kvs "api_endpoint" (Ne.symm h3),
        getStr_cons_ne k v kvs "model" (Ne.symm h4),
        getU32_cons_ne k v kvs "max_tokens" (Ne.symm h5),
        getFloat_cons_ne k v kvs "temperature" (Ne.symm h6),
        getFloat_cons_ne k v kvs "top_p" (Ne.symm h7),
        getFloat_cons_ne k v kvs "frequency_penalty" (Ne.symm h8),
        getFloat_cons_ne k v kvs "presence_penalty" (Ne.symm h9),
        getStr_cons_ne k v kvs "stop" (Ne.symm h10)]
  · intro self p env fsc fs kvs e hread hdec
    simp only [Lib.Config.load_config, hread, hdec]
  · intro b fp fs kvs e hread hdec
    simp only [WinstonConfigBuilder.load_config, hread, hdec]

/-- A lib-world config file with a wrong-typed `model` key. -/
def fsC9b : FS := ⟨[], [(["c9b.toml"], .table [("model", .int 5)])]⟩

/-- Witness for the amended C9, exercising all three conjuncts at
concrete inputs. -/
theorem c9_load_error_behavior_witness :
    decodeWinstonConfigBuilder [("unknown_key", TomlValue.str "x")] =
      decodeWinstonConfigBuilder [] ∧
    Lib.Config.default.load_config (some ["c9b.toml"]) envNone fscNone
      fsC9b = .error "invalid type for key model" ∧
    WinstonConfigBuilder.new.load_config ["c9.toml"] fsC9 =
      .panics ("called Result.unwrap on an Err value: " ++
               "invalid type for key model") :=
  ⟨c9_load_error_behavior.1 "unknown_key" (TomlValue.str "x") [] (by decide),
   c9_load_error_behavior.2.1 Lib.Config.default ["c9b.toml"] envNone fscNone
     fsC9b [("model", TomlValue.int 5)] "invalid type for key model" rfl rfl,
   c9_load_error_behavior.2.2 WinstonConfigBuilder.new ["c9.toml"] fsC9
     [("model", TomlValue.int 5)] "invalid type for key model" rfl rfl⟩
